import Mathlib

/-!
# Verification of the QuizRush game engine

A shallow embedding of the per-session game engine of the quiz server
(`src/game.rs`, with types from `src/types.rs` and image resolution from
`src/config.rs`), together with theorems settling the specification's
claims about scoring, the invite-code registry, reconnection, the
cooldown timer, join/disconnect handling, and leaderboard display.

Modelling conventions:
* `f64` point values become `Rat`; `Instant`-based elapsed time becomes an
  explicit `Rat` parameter (the code only ever uses `round_start_time`
  through `elapsed`).
* `serde_json::Value` becomes the inductive `Json`.
* `DashMap`/`HashMap` become association lists with map semantics
  (`mapGet`/`mapInsert`/`mapRemove`); insertion replaces the key.
* Code that can panic (out-of-range question index) returns `Option`.
* The random number generator and UUID generator become explicit
  parameters: any 6-tuple of digits, any fresh game id.
-/

/-- JSON values, as produced by the handlers' payload construction. -/
inductive Json where
  | null : Json
  | bool (b : Bool) : Json
  | num (q : Rat) : Json
  | str (s : String) : Json
  | arr (elems : List Json) : Json
  | obj (fields : List (String × Json)) : Json
deriving Repr

/-- `types.rs` `GameStatus`: all possible game states. -/
inductive GameStatus where
  | ShowRoom | ShowStart | ShowPrepared | ShowQuestion | SelectAnswer
  | ShowResult | ShowResponses | ShowLeaderboard | Finished | Wait
deriving DecidableEq, Repr

/-- `types.rs` `Player`: a player in a game session. -/
structure Player where
  id : String
  client_id : String
  connected : Bool
  username : String
  points : Rat
deriving DecidableEq, Repr

/-- `types.rs` `Answer`: a recorded answer from a player. -/
structure Answer where
  player_id : String
  answer_id : Nat
  points : Rat
deriving DecidableEq, Repr

/-- `types.rs` `Question`: a single question in a quiz. -/
structure Question where
  question : String
  image : Option String
  video : Option String
  audio : Option String
  answer_image : Option String
  answers : List String
  solution : Nat
  cooldown : Nat
  time : Nat
deriving DecidableEq, Repr

/-- `types.rs` `Quiz`: a quiz definition. -/
structure Quiz where
  subject : String
  questions : List Question
deriving DecidableEq, Repr

/-- `types.rs` `QuestionProgress`. -/
structure QuestionProgress where
  current : Nat
  total : Nat
deriving DecidableEq, Repr

/-- `types.rs` `ServerMsg`: messages sent from server to clients.
`GameStatus` payloads, reconnection payloads and the quiz list carry the
fields of the corresponding Rust variant. -/
inductive ServerMsg where
  | GameStatus (status : GameStatus) (data : Json)
  | SuccessRoom (game_id : String)
  | SuccessJoin (game_id : String)
  | TotalPlayers (count : Nat)
  | ErrorMessage (message : String)
  | StartCooldown
  | Cooldown (count : Nat)
  | Reset (message : String)
  | UpdateQuestion (current : Nat) (total : Nat)
  | PlayerAnswer (count : Nat)
  | GameCreated (game_id : String) (invite_code : String)
  | ManagerReconnected (game_id : String) (status : GameStatus) (data : Json)
      (players : List Player) (current_question : QuestionProgress)
  | NewPlayer (player : Player)
  | RemovePlayer (player_id : String)
  | PlayerKicked (player_id : String)
  | PlayerReconnected (game_id : String) (status : GameStatus) (data : Json)
      (username : String) (points : Rat) (current_question : QuestionProgress)
  | UpdateLeaderboard (leaderboard : List Player)
deriving Repr

/-- `game.rs` `GameEvent`: events broadcast from the game to sockets. -/
inductive GameEvent where
  | SendTo (socket_id : String) (msg : ServerMsg)
  | Broadcast (msg : ServerMsg)
  | BroadcastExcept (exclude : String) (msg : ServerMsg)
  | KickSocket (socket_id : String) (msg : ServerMsg)
deriving Repr

/-! ## Association-list maps (model of `DashMap` / `HashMap`) -/

/-- Lookup in an association-list map: the first binding of the key. -/
def mapGet {α : Type} (m : List (String × α)) (k : String) : Option α :=
  (m.find? (fun p => p.1 == k)).map (fun p => p.2)

/-- Insertion with replacement, as `DashMap::insert` / `HashMap::insert`. -/
def mapInsert {α : Type} (m : List (String × α)) (k : String) (v : α) :
    List (String × α) :=
  (k, v) :: m.filter (fun p => p.1 != k)

/-- Key removal, as `DashMap::remove` / `HashMap::remove`. -/
def mapRemove {α : Type} (m : List (String × α)) (k : String) :
    List (String × α) :=
  m.filter (fun p => p.1 != k)

/-! ## Pure helpers from `game.rs` and `config.rs` -/

/-- `game.rs` `create_invite_code`: six characters, each `'0' + d` for a
random digit `d < 10`. The random draws are the explicit argument. -/
def create_invite_code (digits : Fin 6 → Fin 10) : String :=
  ⟨(List.ofFn digits).map (fun d => Char.ofNat (48 + d.val))⟩

/-- `game.rs` `time_to_points`: `1000 − (1000 / max_seconds) · elapsed`,
clamped below by `0` through `f64::max` (for non-NaN input `a.max(b)` is
`if a < b then b else a`; every quiz question has `time ≥ 1`, so the
division never produces a NaN). -/
def time_to_points (elapsed : Rat) (max_seconds : Nat) : Rat :=
  let points := 1000 - (1000 / (max_seconds : Rat)) * elapsed
  if points < 0 then 0 else points

/-- Rust `f64::round`: nearest integer, ties away from zero. -/
def rustRound (q : Rat) : Rat :=
  if 0 ≤ q then ((⌊q + 1/2⌋ : Int) : Rat) else ((-⌊-q + 1/2⌋ : Int) : Rat)

/-- Rust `as i64` on an `f64`: truncation toward zero. -/
def ratTrunc (q : Rat) : Int :=
  if 0 ≤ q then ⌊q⌋ else ⌈q⌉

/-- `config.rs` `resolve_image_url`: absolute URLs pass through, relative
paths are prefixed with the socket URL and a slash. -/
def resolve_image_url (image_path : Option String) (socket_url : String) :
    Option String :=
  image_path.map (fun path =>
    if path.startsWith "http://" || path.startsWith "https://" then path
    else socket_url ++ "/" ++ path)

/-- JSON encoding of an optional string (`null` when absent). -/
def jsonOfOptionStr : Option String → Json
  | some s => .str s
  | none => .null

/-- JSON encoding of a `Player` (serde field order). -/
def playerJson (p : Player) : Json :=
  .obj [("id", .str p.id), ("client_id", .str p.client_id),
        ("connected", .bool p.connected), ("username", .str p.username),
        ("points", .num p.points)]

/-! ## Registry (`game.rs` `Registry`)

A game handle's registry-relevant datum is its invite code, so `games`
maps game id to invite code. -/

/-- `game.rs` `Registry`: the four concurrent maps, as association lists. -/
structure Registry where
  games : List (String × String)
  invite_codes : List (String × String)
  player_sockets : List (String × String)
  manager_sockets : List (String × String)
deriving Repr

/-- `Registry::new`: all maps empty. -/
def Registry.empty : Registry := ⟨[], [], [], []⟩

/-- `game.rs` `Registry::remove_game`: drop the game entry and its invite
code, then retain only socket bindings pointing to other games. -/
def remove_game (r : Registry) (game_id : String) : Registry :=
  let r1 :=
    match mapGet r.games game_id with
    | some code =>
        { r with games := mapRemove r.games game_id,
                 invite_codes := mapRemove r.invite_codes code }
    | none => r
  { r1 with
      player_sockets := r1.player_sockets.filter (fun p => p.2 != game_id),
      manager_sockets := r1.manager_sockets.filter (fun p => p.2 != game_id) }

/-- The registry updates of `game.rs` `create_game`: insert the game
handle, the invite-code binding, and the manager socket binding. -/
def create_game_registry (r : Registry) (game_id invite_code manager_socket_id : String) :
    Registry :=
  { r with games := mapInsert r.games game_id invite_code,
           invite_codes := mapInsert r.invite_codes invite_code game_id,
           manager_sockets := mapInsert r.manager_sockets manager_socket_id game_id }

/-! ## Game state (`game.rs` `GameState`)

`round_start_time` is an `Instant` used only through the elapsed time at
submission, so handlers that read it take an explicit `elapsed` argument.
`cooldown_cancel : Option Sender` is modelled by whether a handle is held. -/

/-- `game.rs` `GameState`: the internal state of a running game. -/
structure GameState where
  game_id : String
  invite_code : String
  manager_socket_id : String
  manager_client_id : String
  manager_connected : Bool
  started : Bool
  quiz : Quiz
  players : List Player
  current_question : Nat
  round_answers : List Answer
  leaderboard : List Player
  old_leaderboard : Option (List Player)
  cooldown_cancel : Bool
  last_broadcast_status : Option (GameStatus × Json)
  manager_status : Option (GameStatus × Json)
  player_statuses : List (String × (GameStatus × Json))
  base_url : String
deriving Repr

/-- The state part of `game.rs` `create_game`. -/
def create_game_state (game_id invite_code manager_socket_id manager_client_id : String)
    (quiz : Quiz) (base_url : String) : GameState :=
  { game_id := game_id, invite_code := invite_code,
    manager_socket_id := manager_socket_id, manager_client_id := manager_client_id,
    manager_connected := true, started := false,
    quiz := quiz, players := [],
    current_question := 0, round_answers := [],
    leaderboard := [], old_leaderboard := none,
    cooldown_cancel := false,
    last_broadcast_status := none, manager_status := none, player_statuses := [],
    base_url := base_url }

/-- `GameState::broadcast_status`: record as last broadcast, then broadcast. -/
def GameState.broadcast_status (s : GameState) (status : GameStatus) (data : Json) :
    GameState × GameEvent :=
  ({ s with last_broadcast_status := some (status, data) },
   .Broadcast (.GameStatus status data))

/-- `GameState::send_status`: record in the manager's or the target
player's status cache, then send to the target. -/
def GameState.send_status (s : GameState) (target : String) (status : GameStatus)
    (data : Json) : GameState × GameEvent :=
  if target == s.manager_socket_id then
    ({ s with manager_status := some (status, data) },
     .SendTo target (.GameStatus status data))
  else
    ({ s with player_statuses := mapInsert s.player_statuses target (status, data) },
     .SendTo target (.GameStatus status data))

/-- `GameState::broadcast_total_players`: the connected-player count. -/
def GameState.total_players_msg (s : GameState) : ServerMsg :=
  .TotalPlayers (s.players.filter (fun p => p.connected)).length

/-- `GameState::question_progress`. -/
def GameState.question_progress (s : GameState) : QuestionProgress :=
  ⟨s.current_question + 1, s.quiz.questions.length⟩

/-- `GameState::cancel_cooldown`: fire and drop the cancel handle. -/
def GameState.cancel_cooldown (s : GameState) : GameState :=
  { s with cooldown_cancel := false }

/-- `GameState::resolve_image`. -/
def GameState.resolve_image (s : GameState) (path : Option String) : Option String :=
  resolve_image_url path s.base_url

/-! ## Handlers (`game.rs`) -/

/-- Replace the first element satisfying the predicate (the in-place
mutation through `iter_mut().find`). -/
def modifyFirst {α : Type} (pred : α → Bool) (f : α → α) : List α → List α
  | [] => []
  | x :: xs => if pred x then f x :: xs else x :: modifyFirst pred f xs

/-- `game.rs` `handle_join`: reject a duplicate `client_id` or a username
whose byte length (Rust `str::len`) is outside 4..20; otherwise append the
player, bind the socket, and notify manager, room and joiner. -/
def handle_join (s : GameState) (r : Registry) (socket_id client_id username : String) :
    GameState × Registry × List GameEvent :=
  if s.players.any (fun p => p.client_id == client_id) then
    (s, r, [.SendTo socket_id (.ErrorMessage "Player already connected")])
  else if username.utf8ByteSize < 4 then
    (s, r, [.SendTo socket_id (.ErrorMessage "Username cannot be less than 4 characters")])
  else if username.utf8ByteSize > 20 then
    (s, r, [.SendTo socket_id (.ErrorMessage "Username cannot exceed 20 characters")])
  else
    let player : Player :=
      { id := socket_id, client_id := client_id, connected := true,
        username := username, points := 0 }
    let s1 := { s with players := s.players ++ [player] }
    let r1 := { r with player_sockets := mapInsert r.player_sockets socket_id s.game_id }
    (s1, r1,
     [.SendTo s.manager_socket_id (.NewPlayer player),
      .Broadcast s1.total_players_msg,
      .SendTo socket_id (.SuccessJoin s.game_id)])

/-- `game.rs` `handle_select_answer`: silently ignore non-roster senders
and duplicate submissions; otherwise record the answer with points from
the elapsed time, cache a `Wait` status for the submitter, tell the others
the submission count, re-emit the player total, and cancel the cooldown
when every connected player has answered. `none` models the panic on an
out-of-range `current_question`. -/
def handle_select_answer (s : GameState) (elapsed : Rat) (socket_id : String)
    (answer_key : Nat) : Option (GameState × List GameEvent) :=
  if (s.players.find? (fun p => p.id == socket_id)).isNone then
    some (s, [])
  else if s.round_answers.any (fun a => a.player_id == socket_id) then
    some (s, [])
  else
    match s.quiz.questions.get? s.current_question with
    | none => none
    | some question =>
      let points := time_to_points elapsed question.time
      let ans : Answer :=
        { player_id := socket_id, answer_id := answer_key, points := points }
      let s1 := { s with round_answers := s.round_answers ++ [ans] }
      let (s2, e1) := s1.send_status socket_id .Wait
        (.obj [("text", .str "Waiting for the players to answer")])
      let e2 := GameEvent.BroadcastExcept socket_id (.PlayerAnswer s2.round_answers.length)
      let e3 := GameEvent.Broadcast s2.total_players_msg
      let connected_count := (s2.players.filter (fun p => p.connected)).length
      let s3 := if connected_count ≤ s2.round_answers.length then s2.cancel_cooldown else s2
      some (s3, [e1, e2, e3])

/-- Per-round scoring of one player at round end (`handle_show_results`
body of the first loop): the first recorded answer of the player earns
`round(points)` when it names the solution, else nothing. -/
def score_player (solution : Nat) (answers : List Answer) (p : Player) : Player :=
  match answers.find? (fun a => a.player_id == p.id) with
  | some a =>
      if a.answer_id == solution then { p with points := p.points + rustRound a.points }
      else p
  | none => p

/-- The descending-points comparator of `handle_show_results`'s sort. -/
def points_desc (a b : Player) : Bool := decide (b.points ≤ a.points)

/-- Responses per answer index (`handle_show_results`), an unordered
hash map modelled as counts listed by first occurrence. -/
def count_responses (answers : List Answer) : List (Nat × Nat) :=
  answers.foldl (fun acc a =>
    if acc.any (fun p => p.1 == a.answer_id) then
      acc.map (fun p => if p.1 == a.answer_id then (p.1, p.2 + 1) else p)
    else acc ++ [(a.answer_id, 1)]) []

/-- The `ShowResult` payload for the player at `rank` (0-based) in the
sorted roster, as built by `handle_show_results`. -/
def show_result_data (solution : Nat) (answers : List Answer)
    (sorted : List Player) (answer_image : Option String) (rank : Nat)
    (player : Player) : Json :=
  let player_answer := answers.find? (fun a => a.player_id == player.id)
  let is_correct := match player_answer with
    | some a => a.answer_id == solution
    | none => false
  let earned : Rat := match player_answer with
    | some a => if a.answer_id == solution then rustRound a.points else 0
    | none => 0
  let ahead : Json := if rank > 0 then
      match sorted.get? (rank - 1) with
      | some q => .str q.username
      | none => .null
    else .null
  .obj [("correct", .bool is_correct),
        ("message", .str (if is_correct then "Nice!" else "Too bad")),
        ("points", .num ((ratTrunc earned : Int) : Rat)),
        ("myPoints", .num ((ratTrunc player.points : Int) : Rat)),
        ("rank", .num ((rank : Nat) + 1)),
        ("aheadOfMe", ahead),
        ("answerImage", jsonOfOptionStr answer_image)]

/-- One iteration of `handle_show_results`'s result loop: send (and
cache) the `ShowResult` status of the player at this rank. -/
def show_result_step (solution : Nat) (answers : List Answer) (sorted : List Player)
    (answer_image : Option String) (acc : GameState × List GameEvent)
    (rp : Nat × Player) : GameState × List GameEvent :=
  let res := acc.1.send_status rp.2.id .ShowResult
    (show_result_data solution answers sorted answer_image rp.1 rp.2)
  (res.1, acc.2 ++ [res.2])

/-- `game.rs` `handle_show_results`: score every player from this round's
answers, sort the roster by points descending, send each player an
individual `ShowResult` status, send the manager the `ShowResponses`
view, and snapshot the leaderboards. `none` models the panic on an
out-of-range `current_question`. -/
def handle_show_results (s : GameState) : Option (GameState × List GameEvent) :=
  match s.quiz.questions.get? s.current_question with
  | none => none
  | some question =>
    let solution := question.solution
    let old_leaderboard := if s.leaderboard.isEmpty then s.players else s.leaderboard
    let sorted := (s.players.map (score_player solution s.round_answers)).mergeSort points_desc
    let answer_image := s.resolve_image question.answer_image
    let s0 := { s with players := sorted }
    let acc1 := sorted.enum.foldl
      (show_result_step solution s.round_answers sorted answer_image) (s0, [])
    let responses_json : Json :=
      .obj ((count_responses s.round_answers).map
        (fun p => (toString p.1, Json.num (p.2 : Nat))))
    let (s2, ev2) := acc1.1.send_status acc1.1.manager_socket_id .ShowResponses
      (.obj [("question", .str question.question),
             ("responses", responses_json),
             ("correct", .num (question.solution : Nat)),
             ("answers", .arr (question.answers.map Json.str)),
             ("image", jsonOfOptionStr (s.resolve_image question.image))])
    some ({ s2 with leaderboard := sorted, old_leaderboard := some old_leaderboard },
          acc1.2 ++ [ev2])

/-- `game.rs` `handle_show_leaderboard`: on the last question, leave the
running state and broadcast the final top three; otherwise send the
five-entry leaderboard diff to the manager only (consuming the previous
snapshot). -/
def handle_show_leaderboard (s : GameState) : GameState × List GameEvent :=
  if s.current_question + 1 == s.quiz.questions.length then
    let s1 := { s with started := false }
    let top := s.leaderboard.take 3
    let (s2, ev) := s1.broadcast_status .Finished
      (.obj [("subject", .str s.quiz.subject),
             ("top", .arr (top.map playerJson))])
    (s2, [ev])
  else
    let old := s.old_leaderboard.getD s.leaderboard
    let s1 := { s with old_leaderboard := none }
    let (s2, ev) := s1.send_status s1.manager_socket_id .ShowLeaderboard
      (.obj [("oldLeaderboard", .arr ((old.take 5).map playerJson)),
             ("leaderboard", .arr ((s.leaderboard.take 5).map playerJson))])
    (s2, [ev])

/-- `game.rs` `handle_player_disconnect`: unbind the socket; when the
socket matches a roster member, remove it (lobby) or mark it disconnected
(started) and re-emit the player total. -/
def handle_player_disconnect (s : GameState) (r : Registry) (socket_id : String) :
    GameState × Registry × List GameEvent :=
  let r1 := { r with player_sockets := mapRemove r.player_sockets socket_id }
  match s.players.find? (fun p => p.id == socket_id) with
  | none => (s, r1, [])
  | some player =>
    if !s.started then
      let s1 := { s with players := s.players.filter (fun p => p.id != player.id) }
      (s1, r1,
       [.SendTo s.manager_socket_id (.RemovePlayer player.id),
        .Broadcast s1.total_players_msg])
    else
      let players1 := modifyFirst (fun p => p.id == socket_id)
        (fun p => { p with connected := false }) s.players
      let s1 := { s with players := players1 }
      (s1, r1, [.Broadcast s1.total_players_msg])

/-- `game.rs` `handle_player_reconnect`: reject an unknown `client_id`
with `Reset "Game not found"` and a still-connected player with
`Reset "Player already connected"`; otherwise rebind the player to the
new socket, migrate the cached status, and send the resume frame chosen
as own cached status, else last broadcast, else the waiting default. -/
def handle_player_reconnect (s : GameState) (r : Registry) (socket_id client_id : String) :
    GameState × Registry × List GameEvent :=
  match s.players.find? (fun p => p.client_id == client_id) with
  | none => (s, r, [.SendTo socket_id (.Reset "Game not found")])
  | some player =>
    if player.connected then
      (s, r, [.SendTo socket_id (.Reset "Player already connected")])
    else
      let old_id := player.id
      let players1 := modifyFirst (fun p => p.client_id == client_id)
        (fun p => { p with id := socket_id, connected := true }) s.players
      let s1 := { s with players := players1 }
      let psockets := mapInsert (mapRemove r.player_sockets old_id) socket_id s.game_id
      let r1 := { r with player_sockets := psockets }
      let s2 :=
        match mapGet s1.player_statuses old_id with
        | some old_status =>
            let migrated := mapInsert (mapRemove s1.player_statuses old_id) socket_id old_status
            { s1 with player_statuses := migrated }
        | none => s1
      let (status, data) :=
        ((mapGet s2.player_statuses socket_id).or s2.last_broadcast_status).getD
          (.Wait, .obj [("text", .str "Waiting for players")])
      (s2, r1,
       [.SendTo socket_id (.PlayerReconnected s.game_id status data
          player.username player.points s2.question_progress),
        .Broadcast s2.total_players_msg])

/-- The `ManagerDisconnectCheck` arm of `game.rs` `game_task`: when the
check is for this game, the manager is still gone and the game never
started, cancel any cooldown, broadcast the reset, and remove the game
from the registry; otherwise do nothing. -/
def manager_disconnect_check (s : GameState) (r : Registry) (game_id : String) :
    GameState × Registry × List GameEvent :=
  if game_id == s.game_id && !s.manager_connected && !s.started then
    (s.cancel_cooldown, remove_game r s.game_id,
     [.Broadcast (.Reset "Manager disconnected")])
  else
    (s, r, [])

/-! ## Cooldown timer (`game.rs` `run_cooldown`)

The run is a loop over ticks `seconds-1, …, 1`; each iteration races a
one-second sleep against the cancel signal, emitting the tick when the
sleep wins; after the loop one further uncancellable second is slept.
`cancelAt = some k` means the signal becomes observable during the run's
`k`-th second (0-based), counting the final sleep as second
`seconds - 1`; `none` means it never fires. The result records the
emitted ticks, the number of whole seconds slept, and whether the run
reached normal completion (performed the final sleep). -/

/-- The tick loop: race each one-second sleep against cancellation. -/
def cooldown_loop (cancelAt : Option Nat) : List Nat → List Nat × Nat × Bool
  | [] => ([], 1, true)
  | t :: rest =>
    match cancelAt with
    | some 0 => ([], 0, false)
    | some (k + 1) =>
        let res := cooldown_loop (some k) rest
        (t :: res.1, res.2.1 + 1, res.2.2)
    | none =>
        let res := cooldown_loop none rest
        (t :: res.1, res.2.1 + 1, res.2.2)

/-- `game.rs` `run_cooldown`. -/
def run_cooldown (seconds : Nat) (cancelAt : Option Nat) : List Nat × Nat × Bool :=
  cooldown_loop cancelAt (List.range' 1 (seconds - 1)).reverse

/-! ## Map lemmas -/

theorem find?_filter_ne {α : Type} (m : List (String × α)) (k k' : String) (h : k' ≠ k) :
    (m.filter (fun p => p.1 != k)).find? (fun p => p.1 == k') =
      m.find? (fun p => p.1 == k') := by
  induction m with
  | nil => rfl
  | cons a m ih =>
    by_cases hak : a.1 = k
    · have h1 : (a.1 != k) = false := by simp [hak]
      have h2 : (a.1 == k') = false := by simp [hak]; exact fun hc => h hc.symm
      simp [List.filter_cons, h1, List.find?_cons, h2, ih]
    · have h1 : (a.1 != k) = true := by simp [hak]
      by_cases hk' : a.1 = k'
      · simp [List.filter_cons, h1, List.find?_cons, hk', h]
      · have h2 : (a.1 == k') = false := by simp [hk']
        simp [List.filter_cons, h1, List.find?_cons, h2, ih]

theorem find?_filter_self {α : Type} (m : List (String × α)) (k : String) :
    (m.filter (fun p => p.1 != k)).find? (fun p => p.1 == k) = none := by
  induction m with
  | nil => rfl
  | cons a m ih =>
    by_cases hak : a.1 = k
    · have h1 : (a.1 != k) = false := by simp [hak]
      simp [List.filter_cons, h1, ih]
    · have h1 : (a.1 != k) = true := by simp [hak]
      have h2 : (a.1 == k) = false := by simp [hak]
      simp [List.filter_cons, h1, List.find?_cons, h2, ih]

theorem mapGet_insert_self {α : Type} (m : List (String × α)) (k : String) (v : α) :
    mapGet (mapInsert m k v) k = some v := by
  simp [mapGet, mapInsert, List.find?_cons]

theorem mapGet_insert_ne {α : Type} (m : List (String × α)) (k k' : String) (v : α)
    (h : k' ≠ k) : mapGet (mapInsert m k v) k' = mapGet m k' := by
  have h2 : (k == k') = false := by simp; exact fun hc => h hc.symm
  simp [mapGet, mapInsert, List.find?_cons, h2, find?_filter_ne m k k' h]

theorem mapGet_remove_self {α : Type} (m : List (String × α)) (k : String) :
    mapGet (mapRemove m k) k = none := by
  simp [mapGet, mapRemove, find?_filter_self]

theorem mapGet_remove_ne {α : Type} (m : List (String × α)) (k k' : String)
    (h : k' ≠ k) : mapGet (mapRemove m k) k' = mapGet m k' := by
  simp [mapGet, mapRemove, find?_filter_ne m k k' h]

theorem mapGet_eq_none_of_not_mem_keys {α : Type} {m : List (String × α)} {k : String}
    (h : k ∉ m.map Prod.fst) : mapGet m k = none := by
  induction m with
  | nil => rfl
  | cons a m ih =>
    simp only [List.map_cons, List.mem_cons, not_or] at h
    have h2 : (a.1 == k) = false := by simp; exact fun hc => h.1 hc.symm
    simpa [mapGet, List.find?_cons, h2] using ih h.2

theorem exists_mapGet_of_mem_keys {α : Type} {m : List (String × α)} {k : String}
    (h : k ∈ m.map Prod.fst) : ∃ v, mapGet m k = some v := by
  induction m with
  | nil => simp at h
  | cons a m ih =>
    by_cases hak : a.1 = k
    · exact ⟨a.2, by simp [mapGet, List.find?_cons, hak]⟩
    · have h2 : (a.1 == k) = false := by simp [hak]
      simp only [List.map_cons, List.mem_cons] at h
      rcases h with h | h
      · exact absurd h.symm hak
      · simpa [mapGet, List.find?_cons, h2] using ih h

theorem mem_keys_of_mapGet_eq_some {α : Type} {m : List (String × α)} {k : String}
    {v : α} (h : mapGet m k = some v) : k ∈ m.map Prod.fst := by
  simp only [mapGet, Option.map_eq_some'] at h
  obtain ⟨p, hp, hv⟩ := h
  have hmem := List.mem_of_find?_eq_some hp
  have hkey := List.find?_some hp
  simp only [beq_iff_eq] at hkey
  exact hkey ▸ List.mem_map_of_mem Prod.fst hmem

theorem mapGet_of_mem_nodup {α : Type} {m : List (String × α)} {p : String × α}
    (hnd : (m.map Prod.fst).Nodup) (hp : p ∈ m) : mapGet m p.1 = some p.2 := by
  induction m with
  | nil => simp at hp
  | cons a m ih =>
    simp only [List.map_cons, List.nodup_cons] at hnd
    rcases List.mem_cons.mp hp with h | h
    · subst h; simp [mapGet, List.find?_cons]
    · have hne : (a.1 == p.1) = false := by
        simp only [beq_eq_false_iff_ne, ne_eq]
        intro hc
        exact hnd.1 (hc ▸ List.mem_map_of_mem Prod.fst h)
      simpa [mapGet, List.find?_cons, hne] using ih hnd.2 h

theorem nodup_keys_insert {α : Type} {m : List (String × α)} (k : String) (v : α)
    (hnd : (m.map Prod.fst).Nodup) :
    ((mapInsert m k v).map Prod.fst).Nodup := by
  simp only [mapInsert, List.map_cons, List.nodup_cons]
  constructor
  · intro hc
    simp only [List.mem_map] at hc
    obtain ⟨p, hp, hk⟩ := hc
    have := List.of_mem_filter hp
    simp [hk] at this
  · exact ((List.filter_sublist m).map Prod.fst).nodup hnd

theorem nodup_keys_remove {α : Type} {m : List (String × α)} (k : String)
    (hnd : (m.map Prod.fst).Nodup) :
    ((mapRemove m k).map Prod.fst).Nodup :=
  ((List.filter_sublist m).map Prod.fst).nodup hnd

/-! ## Demo fixtures (used by witnesses and counterexamples) -/

/-- The sample question of `config.rs` `init`. -/
def demoQuestion : Question :=
  { question := "What is the correct answer?", image := none, video := none,
    audio := none, answer_image := none,
    answers := ["No", "Correct", "No", "No"], solution := 1,
    cooldown := 5, time := 15 }

/-- The sample quiz of `config.rs` `init`. -/
def demoQuiz : Quiz := { subject := "Example Quiz", questions := [demoQuestion] }

/-- A freshly created session on the sample quiz. -/
def demoState : GameState :=
  create_game_state "g1" "111111" "mgr" "mcli" demoQuiz "http://localhost:3000"

/-- A player as appended by a successful join. -/
def demoPlayer : Player :=
  { id := "s1", client_id := "c1", connected := true, username := "alice", points := 0 }

/-- The demo session with one joined player and one recorded answer. -/
def demoAnswered : GameState :=
  { demoState with
      players := [demoPlayer],
      round_answers := [{ player_id := "s1", answer_id := 1, points := 800 }] }

/-! ## Cooldown timer lemmas -/

theorem cooldown_loop_none (ticks : List Nat) :
    cooldown_loop none ticks = (ticks, ticks.length + 1, true) := by
  induction ticks with
  | nil => rfl
  | cons t rest ih => simp [cooldown_loop, ih]

theorem cooldown_loop_cancel (ticks : List Nat) (k : Nat) (h : k < ticks.length) :
    cooldown_loop (some k) ticks = (ticks.take k, k, false) := by
  induction ticks generalizing k with
  | nil => simp at h
  | cons t rest ih =>
    cases k with
    | zero => rfl
    | succ k =>
      have hk : k < rest.length := by simpa using h
      simp [cooldown_loop, ih k hk]

theorem cooldown_loop_cancel_late (ticks : List Nat) (k : Nat)
    (h : ticks.length ≤ k) :
    cooldown_loop (some k) ticks = cooldown_loop none ticks := by
  induction ticks generalizing k with
  | nil => rfl
  | cons t rest ih =>
    cases k with
    | zero => simp at h
    | succ k =>
      have hk : rest.length ≤ k := by simpa using h
      simp [cooldown_loop, ih k hk]

/-- C4. A cooldown run of `seconds ≥ 1` that is never cancelled emits
`Cooldown` ticks `seconds−1, seconds−2, …, 1`, one per one-second sleep,
then sleeps one further second and completes; a cancel that fires during
tick wait `k < seconds−1` makes the run return immediately after `k`
whole seconds, with only the first `k` ticks emitted and the final sleep
skipped; but a cancel first observable during the final sleep (at or
after second `seconds−1`) does not shorten the run at all. -/
theorem C4_cooldown_run (seconds : Nat) (hs : 1 ≤ seconds) :
    ((run_cooldown seconds none).1.length = seconds - 1
      ∧ (∀ i (h : i < (run_cooldown seconds none).1.length),
          (run_cooldown seconds none).1.get ⟨i, h⟩ = seconds - 1 - i)
      ∧ (run_cooldown seconds none).2.1 = seconds
      ∧ (run_cooldown seconds none).2.2 = true)
    ∧ (∀ k, k < seconds - 1 →
        run_cooldown seconds (some k) = ((run_cooldown seconds none).1.take k, k, false))
    ∧ (∀ k, seconds - 1 ≤ k →
        run_cooldown seconds (some k) = run_cooldown seconds none) := by
  have hlen : ((List.range' 1 (seconds - 1)).reverse).length = seconds - 1 := by
    simp
  refine ⟨⟨?_, ?_, ?_, ?_⟩, ?_, ?_⟩
  · simp [run_cooldown, cooldown_loop_none]
  · intro i h
    simp only [run_cooldown, cooldown_loop_none, List.get_eq_getElem]
    rw [List.getElem_reverse]
    rw [List.getElem_range']
    simp only [run_cooldown, cooldown_loop_none, List.length_reverse,
      List.length_range'] at h
    simp only [List.length_range']
    omega
  · simp [run_cooldown, cooldown_loop_none]
    omega
  · simp [run_cooldown, cooldown_loop_none]
  · intro k hk
    have hk2 : k < ((List.range' 1 (seconds - 1)).reverse).length := by
      simpa using hk
    simp [run_cooldown, cooldown_loop_none,
      cooldown_loop_cancel ((List.range' 1 (seconds - 1)).reverse) k hk2]
  · intro k hk
    have hk2 : ((List.range' 1 (seconds - 1)).reverse).length ≤ k := by
      simpa using hk
    simp [run_cooldown,
      cooldown_loop_cancel_late ((List.range' 1 (seconds - 1)).reverse) k hk2]

/-- Witness for C4 at `seconds = 4`, cancel during the second tick wait:
the run stops after 2 seconds with ticks `3, 2` emitted and no final
sleep. -/
theorem C4_cooldown_run_witness :
    run_cooldown 4 (some 2) = ((run_cooldown 4 none).1.take 2, 2, false) :=
  (C4_cooldown_run 4 (by decide)).2.1 2 (by decide)

/-- Counterexample to C4 as stated: at `seconds = 2` with the cancel
signal firing during the run's second second — the final sleep — the run
does not return immediately and does not skip the final sleep: it behaves
exactly like an uncancelled run, sleeping 2 whole seconds and reaching
normal completion. -/
theorem C4_counterexample :
    run_cooldown 2 (some 1) = run_cooldown 2 none
    ∧ (run_cooldown 2 (some 1)).2.1 = 2
    ∧ (run_cooldown 2 (some 1)).2.2 = true := by decide

/-! ## Scoring lemmas -/

theorem time_to_points_eq_max (e : Rat) (t : Nat) :
    time_to_points e t = max (1000 - (1000 / (t : Rat)) * e) 0 := by
  simp only [time_to_points]
  split_ifs with h
  · exact (max_eq_right (le_of_lt h)).symm
  · exact (max_eq_left (not_lt.mp h)).symm

theorem time_to_points_nonneg (e : Rat) (t : Nat) : 0 ≤ time_to_points e t := by
  simp only [time_to_points]
  split_ifs with h
  · exact le_refl 0
  · exact not_lt.mp h

theorem time_to_points_le_1000 (e : Rat) (t : Nat) (he : 0 ≤ e) :
    time_to_points e t ≤ 1000 := by
  simp only [time_to_points]
  have hc : 0 ≤ (1000 : Rat) / (t : Rat) :=
    div_nonneg (by norm_num) (Nat.cast_nonneg t)
  have hm : 0 ≤ (1000 : Rat) / (t : Rat) * e := mul_nonneg hc he
  split_ifs with h
  · norm_num
  · linarith

theorem time_to_points_zero_elapsed (t : Nat) : time_to_points 0 t = 1000 := by
  simp only [time_to_points]
  norm_num

theorem time_to_points_expired (e : Rat) (t : Nat) (ht : 0 < t)
    (he : (t : Rat) ≤ e) : time_to_points e t = 0 := by
  simp only [time_to_points]
  have ht' : (0 : Rat) < (t : Rat) := by exact_mod_cast ht
  have hc : (0 : Rat) < 1000 / (t : Rat) := div_pos (by norm_num) ht'
  have hcancel : (1000 : Rat) / (t : Rat) * (t : Rat) = 1000 :=
    div_mul_cancel₀ 1000 (ne_of_gt ht')
  have hmul : (1000 : Rat) / (t : Rat) * (t : Rat) ≤ 1000 / (t : Rat) * e :=
    mul_le_mul_of_nonneg_left he (le_of_lt hc)
  split_ifs with h
  · rfl
  · push_neg at h
    linarith [hcancel ▸ hmul]

theorem rustRound_nonneg (q : Rat) (h : 0 ≤ q) : 0 ≤ rustRound q := by
  simp only [rustRound, if_pos h]
  exact_mod_cast Int.floor_nonneg.mpr (by linarith)

theorem rustRound_le_1000 (q : Rat) (h0 : 0 ≤ q) (h : q ≤ 1000) :
    rustRound q ≤ 1000 := by
  simp only [rustRound, if_pos h0]
  have hle : ⌊q + 1/2⌋ ≤ ⌊(1000 : Rat) + 1/2⌋ := Int.floor_le_floor (by linarith)
  have hval : ⌊(1000 : Rat) + 1/2⌋ = 1000 := by
    rw [Int.floor_eq_iff]
    norm_num
  exact_mod_cast hval ▸ hle

theorem send_status_players (s : GameState) (t : String) (st : GameStatus) (d : Json) :
    ((s.send_status t st d).1).players = s.players := by
  unfold GameState.send_status
  split <;> rfl

theorem results_foldl_players (sol : Nat) (ans : List Answer) (sorted : List Player)
    (img : Option String) (l : List (Nat × Player)) (acc : GameState × List GameEvent) :
    ((l.foldl (show_result_step sol ans sorted img) acc).1).players = acc.1.players := by
  induction l generalizing acc with
  | nil => rfl
  | cons x xs ih =>
    rw [List.foldl_cons, ih]
    simp [show_result_step, send_status_players]

theorem handle_show_results_isSome (s : GameState) (question : Question)
    (hq : s.quiz.questions.get? s.current_question = some question) :
    (handle_show_results s).isSome := by
  unfold handle_show_results
  rw [hq]
  rfl

theorem handle_show_results_players (s : GameState) (question : Question)
    (hq : s.quiz.questions.get? s.current_question = some question)
    (pr : GameState × List GameEvent) (hpr : handle_show_results s = some pr) :
    pr.1.players =
      (s.players.map (score_player question.solution s.round_answers)).mergeSort
        points_desc
    ∧ pr.1.leaderboard = pr.1.players := by
  unfold handle_show_results at hpr
  rw [hq] at hpr
  simp only [Option.some.injEq] at hpr
  subst hpr
  constructor
  · simp [send_status_players, results_foldl_players]
  · simp [send_status_players, results_foldl_players]

/-- C1. At submission an answer's recorded score is
`max(0, 1000 − (1000 / question.time) · elapsed)` — `1000` at
`elapsed = 0` and `0` once `elapsed ≥ question.time` — and at round end a
player's cumulative points grow by `round` of that recorded score exactly
when the submitted `answer_id` equals the question's solution, stay
unchanged on a wrong answer, and stay unchanged for non-submitters; the
round-end roster is the per-player scoring applied to every roster
member (up to the descending sort). -/
theorem C1_round_scoring (t : Nat) (ht : 0 < t) (e : Rat) (sol : Nat)
    (ans : List Answer) (p : Player) (s : GameState) (question : Question)
    (hq : s.quiz.questions.get? s.current_question = some question) :
    time_to_points e t = max (1000 - (1000 / (t : Rat)) * e) 0
    ∧ (e = 0 → time_to_points e t = 1000)
    ∧ ((t : Rat) ≤ e → time_to_points e t = 0)
    ∧ (∀ a, ans.find? (fun x => x.player_id == p.id) = some a →
        (score_player sol ans p).points =
          if a.answer_id = sol then p.points + rustRound a.points else p.points)
    ∧ (ans.find? (fun x => x.player_id == p.id) = none →
        (score_player sol ans p).points = p.points)
    ∧ (∀ pr, handle_show_results s = some pr →
        pr.1.players.Perm
          (s.players.map (score_player question.solution s.round_answers))) := by
  refine ⟨time_to_points_eq_max e t, ?_, ?_, ?_, ?_, ?_⟩
  · intro he
    rw [he]
    exact time_to_points_zero_elapsed t
  · intro he
    exact time_to_points_expired e t ht he
  · intro a ha
    unfold score_player
    rw [ha]
    by_cases hsol : a.answer_id = sol
    · simp [hsol]
    · have : (a.answer_id == sol) = false := by simpa using hsol
      simp [this, hsol]
  · intro ha
    simp [score_player, ha]
  · intro pr hpr
    have h := handle_show_results_players s question hq pr hpr
    rw [h.1]
    exact List.mergeSort_perm _ _

/-- Witness for C1: on the sample ten-second question, an answer at
`elapsed = 0` is worth 1000 and an answer at `elapsed = 12 ≥ 10` is worth
0. -/
theorem C1_round_scoring_witness :
    time_to_points 0 10 = 1000 ∧ time_to_points 12 10 = 0 :=
  ⟨(C1_round_scoring 10 (by decide) 0 1 [] demoPlayer demoAnswered demoQuestion
      rfl).2.1 rfl,
   (C1_round_scoring 10 (by decide) 12 1 [] demoPlayer demoAnswered demoQuestion
      rfl).2.2.1 (by norm_num)⟩

/-- C7. After a round's scoring the roster (and the saved leaderboard,
which equals it) is sorted by points in descending order, and each
player's cumulative points neither decrease nor grow by more than 1000,
given that every recorded answer's score was computed by
`time_to_points` at a nonnegative elapsed time. -/
theorem C7_scoring_invariants (s : GameState) (question : Question)
    (hq : s.quiz.questions.get? s.current_question = some question)
    (hans : ∀ a ∈ s.round_answers, ∃ e t, 0 ≤ e ∧ a.points = time_to_points e t) :
    ∀ pr, handle_show_results s = some pr →
      List.Pairwise (fun a b => b.points ≤ a.points) pr.1.players
      ∧ pr.1.leaderboard = pr.1.players
      ∧ (∀ p ∈ s.players,
          p.points ≤ (score_player question.solution s.round_answers p).points
          ∧ (score_player question.solution s.round_answers p).points
              ≤ p.points + 1000) := by
  intro pr hpr
  have h := handle_show_results_players s question hq pr hpr
  refine ⟨?_, h.2, ?_⟩
  · rw [h.1]
    have htrans : ∀ a b c : Player, points_desc a b → points_desc b c →
        points_desc a c := by
      intro a b c hab hbc
      simp only [points_desc, decide_eq_true_eq] at *
      exact le_trans hbc hab
    have htotal : ∀ a b : Player, points_desc a b || points_desc b a := by
      intro a b
      simp only [points_desc, Bool.or_eq_true, decide_eq_true_eq]
      exact le_total b.points a.points
    have hs := List.sorted_mergeSort htrans htotal
      (s.players.map (score_player question.solution s.round_answers))
    exact hs.imp (fun hab => by simpa [points_desc] using hab)
  · intro p hp
    unfold score_player
    cases hfind : s.round_answers.find? (fun x => x.player_id == p.id) with
    | none =>
      constructor
      · exact le_refl _
      · linarith
    | some a =>
      have hmem : a ∈ s.round_answers := List.mem_of_find?_eq_some hfind
      obtain ⟨e, t, he, hpts⟩ := hans a hmem
      have h0 : 0 ≤ a.points := hpts ▸ time_to_points_nonneg e t
      have h1000 : a.points ≤ 1000 := hpts ▸ time_to_points_le_1000 e t he
      have hr0 : 0 ≤ rustRound a.points := rustRound_nonneg a.points h0
      have hr1000 : rustRound a.points ≤ 1000 :=
        rustRound_le_1000 a.points h0 h1000
      by_cases hsol : (a.answer_id == question.solution) = true
      · simp only [hsol, if_pos]
        constructor
        · linarith
        · linarith
      · simp only [Bool.not_eq_true] at hsol
        simp only [hsol, Bool.false_eq_true, if_false]
        constructor
        · exact le_refl _
        · linarith

/-- Witness for C7 on the answered demo session: the round-end roster is
sorted by points descending. -/
theorem C7_scoring_invariants_witness :
    List.Pairwise (fun a b : Player => b.points ≤ a.points)
      ((handle_show_results demoAnswered).get
          (handle_show_results_isSome demoAnswered demoQuestion rfl)).1.players :=
  (C7_scoring_invariants demoAnswered demoQuestion rfl
    (by
      intro a ha
      simp only [demoAnswered, List.mem_singleton] at ha
      refine ⟨2, 10, by norm_num, ?_⟩
      rw [ha]
      norm_num [time_to_points])
    ((handle_show_results demoAnswered).get
      (handle_show_results_isSome demoAnswered demoQuestion rfl))
    (Option.some_get _).symm).1

/-! ## Answer-submission lemmas -/

theorem send_status_round_answers (s : GameState) (t : String) (st : GameStatus)
    (d : Json) : ((s.send_status t st d).1).round_answers = s.round_answers := by
  unfold GameState.send_status
  split <;> rfl

theorem send_status_started (s : GameState) (t : String) (st : GameStatus)
    (d : Json) : ((s.send_status t st d).1).started = s.started := by
  unfold GameState.send_status
  split <;> rfl

/-- The demo session with one joined player, still in the lobby
(`started = false`) with no recorded answers. -/
def demoLobby : GameState := { demoState with players := [demoPlayer] }

/-- C10. `handle_select_answer` never consults `started`: in any session
state — lobby, running or finished — a submission whose socket id is in
the roster and who has not yet answered this round appends an answer
record whose points come from the session's current round start time
(the elapsed-time argument), and leaves `started` as it was. -/
theorem C10_select_answer_ungated (s : GameState) (e : Rat) (sid : String)
    (key : Nat) (question : Question)
    (hq : s.quiz.questions.get? s.current_question = some question)
    (hp : (s.players.find? (fun p => p.id == sid)).isSome)
    (hn : s.round_answers.all (fun a => a.player_id != sid)) :
    (handle_select_answer s e sid key).map (fun res => res.1.round_answers)
      = some (s.round_answers ++
          [{ player_id := sid, answer_id := key,
             points := time_to_points e question.time }])
    ∧ (handle_select_answer s e sid key).map (fun res => res.1.started)
      = some s.started := by
  have h1 : (s.players.find? (fun p => p.id == sid)).isNone = false := by
    rcases Option.isSome_iff_exists.mp hp with ⟨x, hx⟩
    simp [hx]
  have h2 : s.round_answers.any (fun a => a.player_id == sid) = false := by
    simp only [List.any_eq_false]
    intro a ha
    have := List.all_eq_true.mp hn a ha
    simpa using this
  unfold handle_select_answer
  rw [h1, h2, hq]
  simp only [Bool.false_eq_true, if_false]
  constructor
  · split_ifs with hc <;>
      simp [GameState.cancel_cooldown, send_status_round_answers]
  · split_ifs with hc <;>
      simp [GameState.cancel_cooldown, send_status_started]

/-- Witness for C10: in the lobby (game not started), a roster member's
submission is recorded with points from the fifteen-second demo
question. -/
theorem C10_select_answer_ungated_witness :
    (handle_select_answer demoLobby 2 "s1" 1).map (fun res => res.1.round_answers)
      = some [{ player_id := "s1", answer_id := 1,
                points := time_to_points 2 15 }]
    ∧ demoLobby.started = false :=
  ⟨(C10_select_answer_ungated demoLobby 2 "s1" 1 demoQuestion rfl (by rfl)
      (by rfl)).1, rfl⟩

/-! ## Join and disconnect -/

/-- The player record appended by a successful join. -/
def joinPlayer (sid cid uname : String) : Player :=
  { id := sid, client_id := cid, connected := true, username := uname, points := 0 }

/-- C5 (amended). Join rejects a `client_id` already in the roster with
"Player already connected" and any username whose length in UTF-8 bytes
(Rust `str::len`) is outside 4..20, leaving roster and registry
unchanged; on success it appends a player record with 0 points marked
connected, binds the socket, sends `NewPlayer` to the manager, broadcasts
`TotalPlayers` with the connected count, and sends `SuccessJoin` to the
joiner. -/
theorem C5_join (s : GameState) (r : Registry) (sid cid uname : String) :
    (s.players.any (fun p => p.client_id == cid) = true →
      handle_join s r sid cid uname =
        (s, r, [.SendTo sid (.ErrorMessage "Player already connected")]))
    ∧ (s.players.any (fun p => p.client_id == cid) = false →
        uname.utf8ByteSize < 4 →
        handle_join s r sid cid uname =
          (s, r,
           [.SendTo sid (.ErrorMessage "Username cannot be less than 4 characters")]))
    ∧ (s.players.any (fun p => p.client_id == cid) = false →
        4 ≤ uname.utf8ByteSize → 20 < uname.utf8ByteSize →
        handle_join s r sid cid uname =
          (s, r,
           [.SendTo sid (.ErrorMessage "Username cannot exceed 20 characters")]))
    ∧ (s.players.any (fun p => p.client_id == cid) = false →
        4 ≤ uname.utf8ByteSize → uname.utf8ByteSize ≤ 20 →
        handle_join s r sid cid uname =
          ({ s with players := s.players ++ [joinPlayer sid cid uname] },
           { r with player_sockets := mapInsert r.player_sockets sid s.game_id },
           [.SendTo s.manager_socket_id (.NewPlayer (joinPlayer sid cid uname)),
            .Broadcast (.TotalPlayers
              (((s.players ++ [joinPlayer sid cid uname]).filter
                  (fun p => p.connected)).length)),
            .SendTo sid (.SuccessJoin s.game_id)])) := by
  refine ⟨?_, ?_, ?_, ?_⟩
  · intro hdup
    simp [handle_join, hdup]
  · intro hdup hlt
    simp [handle_join, hdup, hlt]
  · intro hdup h4 h20
    simp [handle_join, hdup, Nat.not_lt.mpr h4, h20]
  · intro hdup h4 h20
    simp [handle_join, hdup, Nat.not_lt.mpr h4, Nat.not_lt.mpr h20,
      GameState.total_players_msg, joinPlayer]

/-- Witness for C5: "alice" (5 bytes) joins the fresh demo session. -/
theorem C5_join_witness :
    handle_join demoState Registry.empty "s1" "c1" "alice" =
      ({ demoState with players := [joinPlayer "s1" "c1" "alice"] },
       { Registry.empty with player_sockets := [("s1", "g1")] },
       [.SendTo "mgr" (.NewPlayer (joinPlayer "s1" "c1" "alice")),
        .Broadcast (.TotalPlayers 1),
        .SendTo "s1" (.SuccessJoin "g1")]) :=
  (C5_join demoState Registry.empty "s1" "c1" "alice").2.2.2 rfl
    (by decide) (by decide)

/-- Counterexample to C5 as stated: the username consisting of three
copies of a two-byte character has 3 characters — outside the claimed
interval `4..20` — yet the code accepts it (its UTF-8 byte length is 6)
and appends it to the roster instead of rejecting it. -/
theorem C5_counterexample :
    String.length "æææ" = 3
    ∧ (handle_join demoState Registry.empty "s1" "c1" "æææ").1.players
        = [joinPlayer "s1" "c1" "æææ"]
    ∧ demoState.players = [] := by
  refine ⟨rfl, rfl, rfl⟩

theorem map_modifyFirst {α β : Type} (pred : α → Bool) (f : α → α) (g : α → β)
    (hg : ∀ a, g (f a) = g a) (l : List α) :
    (modifyFirst pred f l).map g = l.map g := by
  induction l with
  | nil => rfl
  | cons x xs ih =>
    unfold modifyFirst
    split
    · simp [hg x]
    · simp [ih]

/-- The demo session with one joined player after the game started. -/
def demoRunning : GameState := { demoLobby with started := true }

/-- C9 (amended). On `PlayerDisconnect` the socket binding is removed;
when the socket matches a roster member the member is removed and
`RemovePlayer` sent to the manager if the game has not started, or
retained with `connected := false` and unchanged points if it has, and
`TotalPlayers` is re-emitted; when no roster member matches, nothing is
sent at all. -/
theorem C9_player_disconnect (s : GameState) (r : Registry) (sid : String) :
    (s.players.find? (fun p => p.id == sid) = none →
      handle_player_disconnect s r sid =
        (s, { r with player_sockets := mapRemove r.player_sockets sid }, []))
    ∧ (∀ player, s.players.find? (fun p => p.id == sid) = some player →
        s.started = false →
        handle_player_disconnect s r sid =
          ({ s with players := s.players.filter (fun p => p.id != player.id) },
           { r with player_sockets := mapRemove r.player_sockets sid },
           [.SendTo s.manager_socket_id (.RemovePlayer player.id),
            .Broadcast (.TotalPlayers
              (((s.players.filter (fun p => p.id != player.id)).filter
                  (fun p => p.connected)).length))]))
    ∧ (∀ player, s.players.find? (fun p => p.id == sid) = some player →
        s.started = true →
        handle_player_disconnect s r sid =
          ({ s with players := modifyFirst (fun p => p.id == sid)
                        (fun p => { p with connected := false }) s.players },
           { r with player_sockets := mapRemove r.player_sockets sid },
           [.Broadcast (.TotalPlayers
              (((modifyFirst (fun p => p.id == sid)
                  (fun p => { p with connected := false }) s.players).filter
                  (fun p => p.connected)).length))])
        ∧ (modifyFirst (fun p => p.id == sid)
            (fun p => { p with connected := false }) s.players).map
              (fun p => (p.id, p.points))
            = s.players.map (fun p => (p.id, p.points))) := by
  refine ⟨?_, ?_, ?_⟩
  · intro hfind
    simp [handle_player_disconnect, hfind]
  · intro player hfind hstart
    simp [handle_player_disconnect, hfind, hstart, GameState.total_players_msg]
  · intro player hfind hstart
    constructor
    · simp [handle_player_disconnect, hfind, hstart, GameState.total_players_msg]
    · exact map_modifyFirst (fun p => p.id == sid)
        (fun p => { p with connected := false })
        (fun p => (p.id, p.points)) (fun a => rfl) s.players

/-- Witness for C9: the lone player of a started demo session
disconnects — the record survives with `connected := false`, the same
points, and only `TotalPlayers` is sent. -/
theorem C9_player_disconnect_witness :
    handle_player_disconnect demoRunning Registry.empty "s1" =
      ({ demoRunning with players := [{ demoPlayer with connected := false }] },
       Registry.empty,
       [.Broadcast (.TotalPlayers 0)]) :=
  ((C9_player_disconnect demoRunning Registry.empty "s1").2.2 demoPlayer rfl
    rfl).1

/-- Counterexample to C9 as stated: a `PlayerDisconnect` for a socket
that matches no roster member emits no message at all, contradicting the
claim that `TotalPlayers` is re-emitted in every case. -/
theorem C9_counterexample :
    (handle_player_disconnect demoState Registry.empty "sock").2.2 = [] := rfl

/-! ## Reconnection lemmas -/

theorem find?_modifyFirst {α : Type} (pred : α → Bool) (f : α → α)
    (hf : ∀ a, pred a = true → pred (f a) = true) (l : List α) :
    List.find? pred (modifyFirst pred f l) = (List.find? pred l).map f := by
  induction l with
  | nil => rfl
  | cons x xs ih =>
    by_cases hx : pred x = true
    · simp [modifyFirst, hx, List.find?_cons, hf x hx]
    · have hx' : pred x = false := by simpa using hx
      simp [modifyFirst, hx', List.find?_cons, ih]

/-- The waiting-room default resume frame. -/
def waitDefault : GameStatus × Json :=
  (.Wait, .obj [("text", .str "Waiting for players")])

/-- The resume frame chosen for a reconnecting player: own cached status,
else the last broadcast status, else the waiting default. -/
def resumeFrame (s : GameState) (old_id : String) : GameStatus × Json :=
  ((mapGet s.player_statuses old_id).or s.last_broadcast_status).getD waitDefault

/-- C3. `PlayerReconnect` answers `Reset "Game not found"` precisely when
no roster member carries the given `client_id`, and
`Reset "Player already connected"` precisely when that member is still
connected; on success the `PlayerReconnected` frame carries the player's
own last cached status if present, else the last broadcast status, else
the waiting default — and a second reconnect for the same `client_id`
then yields `Reset "Player already connected"`. (The reconnecting
socket id is fresh, so it has no stale entry in the status cache.) -/
theorem C3_player_reconnect (s : GameState) (r : Registry) (sid sid2 cid : String)
    (hfresh : mapGet s.player_statuses sid = none) :
    ((handle_player_reconnect s r sid cid).2.2 =
        [.SendTo sid (.Reset "Game not found")]
      ↔ s.players.find? (fun p => p.client_id == cid) = none)
    ∧ ((handle_player_reconnect s r sid cid).2.2 =
        [.SendTo sid (.Reset "Player already connected")]
      ↔ ∃ player, s.players.find? (fun p => p.client_id == cid) = some player
          ∧ player.connected = true)
    ∧ (∀ player, s.players.find? (fun p => p.client_id == cid) = some player →
        player.connected = false →
        (handle_player_reconnect s r sid cid).2.2 =
          [.SendTo sid (.PlayerReconnected s.game_id
             (resumeFrame s player.id).1 (resumeFrame s player.id).2
             player.username player.points
             ⟨s.current_question + 1, s.quiz.questions.length⟩),
           .Broadcast ((handle_player_reconnect s r sid cid).1.total_players_msg)]
        ∧ (handle_player_reconnect (handle_player_reconnect s r sid cid).1
            (handle_player_reconnect s r sid cid).2.1 sid2 cid).2.2 =
          [.SendTo sid2 (.Reset "Player already connected")]) := by
  cases hfind : s.players.find? (fun p => p.client_id == cid) with
  | none =>
    refine ⟨?_, ?_, ?_⟩
    · simp [handle_player_reconnect, hfind]
    · simp only [handle_player_reconnect, hfind]
      constructor
      · intro h
        simp at h
      · rintro ⟨player, hp, -⟩
        simp at hp
    · intro player hp
      simp at hp
  | some player =>
    by_cases hconn : player.connected
    · refine ⟨?_, ?_, ?_⟩
      · simp only [handle_player_reconnect, hfind, hconn, if_true]
        constructor
        · intro h
          simp at h
        · intro h
          cases h
      · simp only [handle_player_reconnect, hfind, hconn, if_true]
        constructor
        · intro _
          exact ⟨player, rfl, hconn⟩
        · intro _
          trivial
      · intro player' hp hc
        injection hp with hp
        subst hp
        simp [hconn] at hc
    · have hconn' : player.connected = false := by simpa using hconn
      have hfind2 : List.find? (fun p => p.client_id == cid)
          (modifyFirst (fun p => p.client_id == cid)
            (fun p => { p with id := sid, connected := true }) s.players) =
          some { player with id := sid, connected := true } := by
        rw [find?_modifyFirst (fun p => p.client_id == cid)
          (fun p => { p with id := sid, connected := true })
          (fun a ha => by simpa using ha) s.players, hfind]
        rfl
      refine ⟨?_, ?_, ?_⟩
      · cases hold : mapGet s.player_statuses player.id with
        | none =>
          simp only [handle_player_reconnect, hfind, hconn', hold, hfresh]
          constructor
          · intro h
            simp at h
          · intro h
            cases h
        | some old_status =>
          simp only [handle_player_reconnect, hfind, hconn', hold]
          constructor
          · intro h
            simp at h
          · intro h
            cases h
      · constructor
        · intro h
          cases hold : mapGet s.player_statuses player.id with
          | none =>
            simp only [handle_player_reconnect, hfind, hconn', hold, hfresh] at h
            simp at h
          | some old_status =>
            simp only [handle_player_reconnect, hfind, hconn', hold] at h
            simp at h
        · rintro ⟨player', hp, hc⟩
          injection hp with hp
          subst hp
          simp [hconn'] at hc
      · intro player' hp hc
        injection hp with hp
        subst hp
        constructor
        · cases hold : mapGet s.player_statuses player.id with
          | none =>
            simp [handle_player_reconnect, hfind, hconn', hold, hfresh,
              resumeFrame, waitDefault, GameState.question_progress]
          | some old_status =>
            simp [handle_player_reconnect, hfind, hconn', hold,
              mapGet_insert_self, resumeFrame, GameState.question_progress]
        · cases hold : mapGet s.player_statuses player.id with
          | none =>
            simp [handle_player_reconnect, hfind, hconn', hold, hfresh, hfind2]
          | some old_status =>
            simp [handle_player_reconnect, hfind, hconn', hold, hfind2]

/-- A started demo session whose lone player is disconnected and has a
cached `SelectAnswer` status. -/
def demoDisconnected : GameState :=
  { demoRunning with
      players := [{ demoPlayer with connected := false }],
      player_statuses :=
        [("s1", (GameStatus.SelectAnswer, Json.obj [("q", Json.str "x")]))] }

/-- Witness for C3: the disconnected demo player reconnects on a fresh
socket and resumes from its own cached `SelectAnswer` frame. -/
theorem C3_player_reconnect_witness :
    (handle_player_reconnect demoDisconnected Registry.empty "s9" "c1").2.2 =
      [.SendTo "s9" (.PlayerReconnected "g1"
         (resumeFrame demoDisconnected "s1").1
         (resumeFrame demoDisconnected "s1").2
         "alice" 0 ⟨1, 1⟩),
       .Broadcast ((handle_player_reconnect demoDisconnected Registry.empty
          "s9" "c1").1.total_players_msg)] :=
  ((C3_player_reconnect demoDisconnected Registry.empty "s9" "s9b" "c1"
      rfl).2.2 { demoPlayer with connected := false } rfl rfl).1

/-! ## Leaderboard display -/

/-- The `Finished` payload of `handle_show_leaderboard`: quiz subject and
the top three of the leaderboard. -/
def finishedPayload (s : GameState) : Json :=
  .obj [("subject", .str s.quiz.subject),
        ("top", .arr ((s.leaderboard.take 3).map playerJson))]

/-- The manager-only `ShowLeaderboard` payload: first five entries of the
previous and current leaderboards. -/
def leaderboardPayload (s : GameState) : Json :=
  .obj [("oldLeaderboard",
         .arr (((s.old_leaderboard.getD s.leaderboard).take 5).map playerJson)),
        ("leaderboard", .arr ((s.leaderboard.take 5).map playerJson))]

/-- C6. Processing `ShowLeaderboard` — a command carrying no sender, so
any socket may trigger it — when the current question is the last ends
the running state and broadcasts `Finished` with the top three of the
leaderboard to everyone; otherwise the only event is a `ShowLeaderboard`
payload with the first five entries of the previous and current
leaderboards sent to the manager socket alone. -/
theorem C6_show_leaderboard (s : GameState) :
    (s.current_question + 1 = s.quiz.questions.length →
      handle_show_leaderboard s =
        ({ s with started := false,
                  last_broadcast_status := some (.Finished, finishedPayload s) },
         [.Broadcast (.GameStatus .Finished (finishedPayload s))]))
    ∧ (s.current_question + 1 ≠ s.quiz.questions.length →
      handle_show_leaderboard s =
        ({ s with old_leaderboard := none,
                  manager_status := some (.ShowLeaderboard, leaderboardPayload s) },
         [.SendTo s.manager_socket_id
            (.GameStatus .ShowLeaderboard (leaderboardPayload s))])) := by
  constructor
  · intro h
    have hb : (s.current_question + 1 == s.quiz.questions.length) = true := by
      simpa using h
    simp [handle_show_leaderboard, hb, GameState.broadcast_status,
      finishedPayload]
  · intro h
    have hb : (s.current_question + 1 == s.quiz.questions.length) = false := by
      simpa using h
    simp [handle_show_leaderboard, hb, GameState.send_status,
      leaderboardPayload]

/-- Witness for C6: the demo quiz has one question, so `ShowLeaderboard`
on it finishes the session and broadcasts the final top three. -/
theorem C6_show_leaderboard_witness :
    handle_show_leaderboard demoAnswered =
      ({ demoAnswered with
          started := false,
          last_broadcast_status := some (.Finished, finishedPayload demoAnswered) },
       [.Broadcast (.GameStatus .Finished (finishedPayload demoAnswered))]) :=
  (C6_show_leaderboard demoAnswered).1 rfl

/-! ## Manager-disconnect check -/

/-- C8. Processing a `ManagerDisconnectCheck` for this game destroys the
session — cancels any active cooldown, broadcasts
`Reset "Manager disconnected"`, and removes the game from the registry —
exactly when the manager is still disconnected and the game has not
started; when the game has started (or the manager is back) the check
changes nothing. -/
theorem C8_manager_disconnect_check (s : GameState) (r : Registry) (gid : String)
    (hgid : gid = s.game_id) (v : String)
    (hlive : mapGet r.games s.game_id = some v) :
    ((s.manager_connected = false ∧ s.started = false) ↔
      mapGet (manager_disconnect_check s r gid).2.1.games s.game_id = none)
    ∧ (s.manager_connected = false → s.started = false →
        manager_disconnect_check s r gid =
          (s.cancel_cooldown, remove_game r s.game_id,
           [.Broadcast (.Reset "Manager disconnected")]))
    ∧ (s.started = true → manager_disconnect_check s r gid = (s, r, [])) := by
  subst hgid
  have hremoved : mapGet (remove_game r s.game_id).games s.game_id = none := by
    unfold remove_game
    rw [hlive]
    exact mapGet_remove_self r.games s.game_id
  refine ⟨?_, ?_, ?_⟩
  · constructor
    · rintro ⟨hm, hs⟩
      simp only [manager_disconnect_check, hm, hs]
      simpa using hremoved
    · intro h
      by_cases hm : s.manager_connected
      · exfalso
        simp only [manager_disconnect_check, hm] at h
        simp [hlive] at h
      · by_cases hs : s.started
        · exfalso
          simp only [manager_disconnect_check, hs] at h
          simp [hlive] at h
        · exact ⟨by simpa using hm, by simpa using hs⟩
  · intro hm hs
    simp [manager_disconnect_check, hm, hs]
  · intro hs
    simp [manager_disconnect_check, hs]

/-- The demo session after its manager dropped in the lobby, registered
as a live game. -/
def demoOrphan : GameState := { demoLobby with manager_connected := false }

/-- A registry holding only the demo game. -/
def demoRegistry : Registry :=
  create_game_registry Registry.empty "g1" "111111" "mgr"

/-- Witness for C8: the check on the orphaned lobby session removes the
game from the registry, cancels the cooldown, and broadcasts the reset. -/
theorem C8_manager_disconnect_check_witness :
    manager_disconnect_check demoOrphan demoRegistry "g1" =
      (demoOrphan.cancel_cooldown, remove_game demoRegistry "g1",
       [.Broadcast (.Reset "Manager disconnected")]) :=
  (C8_manager_disconnect_check demoOrphan demoRegistry "g1" rfl "111111"
    rfl).2.1 rfl rfl

/-! ## Invite-code registry -/

/-- Exactly six decimal digits. -/
def is_six_digits (c : String) : Prop :=
  c.length = 6 ∧ ∀ ch ∈ c.data, ch.isDigit

theorem create_invite_code_six_digits (digits : Fin 6 → Fin 10) :
    is_six_digits (create_invite_code digits) := by
  constructor
  · simp [create_invite_code, String.length]
  · intro ch hch
    simp only [create_invite_code, List.mem_map] at hch
    obtain ⟨d, -, rfl⟩ := hch
    revert d
    decide

/-- Registry states reachable through game creation and removal; the
random generator may produce any digit tuple, while game ids (UUIDs) are
assumed fresh. -/
inductive ReachableRegistry : Registry → Prop where
  | init : ReachableRegistry Registry.empty
  | create (r : Registry) (hr : ReachableRegistry r)
      (game_id manager_socket_id : String) (digits : Fin 6 → Fin 10)
      (hfreshg : mapGet r.games game_id = none) :
      ReachableRegistry
        (create_game_registry r game_id (create_invite_code digits)
          manager_socket_id)
  | remove (r : Registry) (hr : ReachableRegistry r) (game_id : String) :
      ReachableRegistry (remove_game r game_id)

/-- Reachability under the additional assumption that every generated
invite code misses all codes of live sessions (no random collision). -/
inductive ReachableFreshCodes : Registry → Prop where
  | init : ReachableFreshCodes Registry.empty
  | create (r : Registry) (hr : ReachableFreshCodes r)
      (game_id manager_socket_id : String) (digits : Fin 6 → Fin 10)
      (hfreshg : mapGet r.games game_id = none)
      (hfreshc : mapGet r.invite_codes (create_invite_code digits) = none) :
      ReachableFreshCodes
        (create_game_registry r game_id (create_invite_code digits)
          manager_socket_id)
  | remove (r : Registry) (hr : ReachableFreshCodes r) (game_id : String) :
      ReachableFreshCodes (remove_game r game_id)

/-- Invite codes and live game ids are in bijection: every code binding
names a live game, and every live game is named by exactly one code. -/
def invite_bijection (r : Registry) : Prop :=
  (∀ p ∈ r.invite_codes, p.2 ∈ r.games.map Prod.fst)
  ∧ ∀ gid ∈ r.games.map Prod.fst,
      ∃! code, mapGet r.invite_codes code = some gid

/-- The inductive registry invariant: distinct keys on both maps, the two
maps mutually inverse, every bound invite code six digits. -/
def RegInv (r : Registry) : Prop :=
  (r.games.map Prod.fst).Nodup
  ∧ (r.invite_codes.map Prod.fst).Nodup
  ∧ (∀ g c, mapGet r.games g = some c → mapGet r.invite_codes c = some g)
  ∧ (∀ c g, mapGet r.invite_codes c = some g → mapGet r.games g = some c)
  ∧ (∀ p ∈ r.invite_codes, is_six_digits p.1)

theorem reg_inv_create (r : Registry) (hinv : RegInv r) (gid code msock : String)
    (hfreshg : mapGet r.games gid = none)
    (hfreshc : mapGet r.invite_codes code = none)
    (hsix : is_six_digits code) :
    RegInv (create_game_registry r gid code msock) := by
  obtain ⟨hnd1, hnd2, h34 : _, h43, h6⟩ := hinv
  refine ⟨nodup_keys_insert gid code hnd1, nodup_keys_insert code gid hnd2,
    ?_, ?_, ?_⟩
  · intro g c hg
    simp only [create_game_registry] at hg ⊢
    by_cases hgid : g = gid
    · subst hgid
      rw [mapGet_insert_self] at hg
      injection hg with hg
      subst hg
      exact mapGet_insert_self _ _ _
    · rw [mapGet_insert_ne _ _ _ _ hgid] at hg
      have hold := h34 g c hg
      have hcne : c ≠ code := by
        intro hc
        subst hc
        rw [hfreshc] at hold
        cases hold
      rw [mapGet_insert_ne _ _ _ _ hcne]
      exact hold
  · intro c g hc
    simp only [create_game_registry] at hc ⊢
    by_cases hcode : c = code
    · subst hcode
      rw [mapGet_insert_self] at hc
      injection hc with hc
      subst hc
      exact mapGet_insert_self _ _ _
    · rw [mapGet_insert_ne _ _ _ _ hcode] at hc
      have hold := h43 c g hc
      have hgne : g ≠ gid := by
        intro hg
        subst hg
        rw [hfreshg] at hold
        cases hold
      rw [mapGet_insert_ne _ _ _ _ hgne]
      exact hold
  · intro p hp
    simp only [create_game_registry, mapInsert] at hp
    rcases List.mem_cons.mp hp with hp | hp
    · subst hp
      exact hsix
    · exact h6 p (List.mem_of_mem_filter hp)

theorem reg_inv_remove (r : Registry) (hinv : RegInv r) (gid : String) :
    RegInv (remove_game r gid) := by
  obtain ⟨hnd1, hnd2, h34, h43, h6⟩ := hinv
  unfold remove_game
  cases hgame : mapGet r.games gid with
  | none =>
    exact ⟨hnd1, hnd2, h34, h43, h6⟩
  | some code0 =>
    refine ⟨nodup_keys_remove gid hnd1, nodup_keys_remove code0 hnd2, ?_, ?_, ?_⟩
    · intro g c hg
      have hgne : g ≠ gid := by
        intro h
        subst h
        rw [mapGet_remove_self] at hg
        cases hg
      rw [mapGet_remove_ne _ _ _ hgne] at hg
      have hold := h34 g c hg
      have hcne : c ≠ code0 := by
        intro h
        have h2 := h34 gid code0 hgame
        rw [← h] at h2
        rw [hold] at h2
        injection h2 with h2
        exact hgne h2
      rw [mapGet_remove_ne _ _ _ hcne]
      exact hold
    · intro c g hc
      have hcne : c ≠ code0 := by
        intro h
        subst h
        rw [mapGet_remove_self] at hc
        cases hc
      rw [mapGet_remove_ne _ _ _ hcne] at hc
      have hold := h43 c g hc
      have hgne : g ≠ gid := by
        intro h
        have h2 := hgame
        rw [← h] at h2
        rw [hold] at h2
        injection h2 with h2
        exact hcne h2
      rw [mapGet_remove_ne _ _ _ hgne]
      exact hold
    · intro p hp
      exact h6 p (List.mem_of_mem_filter hp)

theorem reg_inv_of_reachable (r : Registry) (h : ReachableFreshCodes r) :
    RegInv r := by
  induction h with
  | init =>
    refine ⟨List.nodup_nil, List.nodup_nil, ?_, ?_, ?_⟩
    · intro g c hg
      cases hg
    · intro c g hc
      cases hc
    · intro p hp
      cases hp
  | create r hr gid msock digits hfreshg hfreshc ih =>
    exact reg_inv_create r ih gid (create_invite_code digits) msock hfreshg
      hfreshc (create_invite_code_six_digits digits)
  | remove r hr gid ih =>
    exact reg_inv_remove r ih gid

/-- C2 (amended). In every registry state reachable when each generated
invite code avoids the codes of all live sessions, invite codes and live
game ids are in bijection — every live session has exactly one code —
and every bound invite code is exactly six decimal digits. (Without the
freshness proviso the bijection can break: see the counterexample.) -/
theorem C2_invite_bijection (r : Registry) (h : ReachableFreshCodes r) :
    invite_bijection r ∧ ∀ p ∈ r.invite_codes, is_six_digits p.1 := by
  obtain ⟨hnd1, hnd2, h34, h43, h6⟩ := reg_inv_of_reachable r h
  refine ⟨⟨?_, ?_⟩, h6⟩
  · intro p hp
    have hself := mapGet_of_mem_nodup hnd2 hp
    have hg := h43 p.1 p.2 hself
    exact mem_keys_of_mapGet_eq_some hg
  · intro gid hgid
    obtain ⟨c, hc⟩ := exists_mapGet_of_mem_keys hgid
    refine ⟨c, h34 gid c hc, ?_⟩
    intro c' hc'
    have h2 := h43 c' gid hc'
    rw [hc] at h2
    injection h2 with h2
    exact h2.symm

/-- Witness for C2: a single collision-free creation on the empty
registry yields a bijective registry. -/
theorem C2_invite_bijection_witness :
    invite_bijection
      (create_game_registry Registry.empty "g1"
        (create_invite_code (fun _ => 1)) "m1") :=
  (C2_invite_bijection _
    (ReachableFreshCodes.create Registry.empty ReachableFreshCodes.init
      "g1" "m1" (fun _ => 1) rfl rfl)).1

/-- Two sessions created with the same randomly drawn code. -/
def collidedRegistry : Registry :=
  create_game_registry
    (create_game_registry Registry.empty "g1" (create_invite_code (fun _ => 1))
      "m1")
    "g2" (create_invite_code (fun _ => 1)) "m2"

/-- Counterexample to C2 as stated: the generator may repeat a code, and
`create_game` inserts without checking, overwriting the first game's
binding — the resulting reachable state has a live session (`"g1"`) with
no invite code at all, so the bijection fails. -/
theorem C2_counterexample :
    ReachableRegistry collidedRegistry
    ∧ "g1" ∈ collidedRegistry.games.map Prod.fst
    ∧ ¬ invite_bijection collidedRegistry := by
  refine ⟨?_, ?_, ?_⟩
  · exact ReachableRegistry.create _
      (ReachableRegistry.create _ ReachableRegistry.init "g1" "m1"
        (fun _ => 1) rfl)
      "g2" "m2" (fun _ => 1) rfl
  · have : collidedRegistry.games.map Prod.fst = ["g2", "g1"] := rfl
    rw [this]
    simp
  · rintro ⟨-, h2⟩
    obtain ⟨code, hc, -⟩ := h2 "g1" (by
      have : collidedRegistry.games.map Prod.fst = ["g2", "g1"] := rfl
      rw [this]
      simp)
    have hlist : collidedRegistry.invite_codes = [("111111", "g2")] := rfl
    rw [hlist] at hc
    simp only [mapGet, Option.map_eq_some'] at hc
    obtain ⟨p, hp, hpv⟩ := hc
    have hmem := List.mem_of_find?_eq_some hp
    simp only [List.mem_singleton] at hmem
    subst hmem
    simp at hpv
